import Mathlib

/-!
Verification of the Black-Scholes pricing engine in `src/main.py`.

The six engine functions (`compute_option_price`, `compute_delta`,
`compute_gamma`, `compute_theta`, `compute_vega`, `compute_rho`) and the
swept spot range (`spot_prices_range` plus the six series built from it)
are embedded over the reals.  Each engine function in the source computes
`d1` (and possibly `d2`) before its `try:` block, then branches on
`option_type`; when the branch leaves the result unassigned (any string
other than "call"/"put") the `return` raises, the bare `except:` catches
it, `st.sidebar.error(...)` fires, and the function returns `None`.
Accordingly each embedded function returns `Option ℝ × Bool`: the first
component is the returned value (`none` for the Python `None`), the second
records whether `st.sidebar.error` was invoked.
-/

open MeasureTheory Set

/-- Standard normal density, modelling `scipy.stats.norm.pdf`:
`φ x = exp (-x²/2) / √(2π)`. -/
noncomputable def normalPDF (x : ℝ) : ℝ :=
  Real.exp (-x ^ 2 / 2) / Real.sqrt (2 * Real.pi)

/-- Standard normal cumulative distribution, modelling `scipy.stats.norm.cdf`:
`Φ x = ∫_{-∞}^{x} φ`. -/
noncomputable def normalCDF (x : ℝ) : ℝ :=
  ∫ t in Iic x, normalPDF t

/-- Embeds `compute_option_price` from `src/main.py` (lines 7-20). -/
noncomputable def compute_option_price (spot strike rate maturity vol : ℝ)
    (option_type : String) : Option ℝ × Bool :=
  let d1 := (Real.log (spot / strike) + (rate + vol ^ 2 / 2) * maturity) /
    (vol * Real.sqrt maturity)
  let d2 := d1 - vol * Real.sqrt maturity
  if option_type = "call" then
    (some (spot * normalCDF d1 -
      strike * Real.exp (-rate * maturity) * normalCDF d2), false)
  else if option_type = "put" then
    (some (strike * Real.exp (-rate * maturity) * normalCDF (-d2) -
      spot * normalCDF (-d1)), false)
  else (none, true)

/-- Embeds `compute_delta` from `src/main.py` (lines 22-34). -/
noncomputable def compute_delta (spot strike rate maturity vol : ℝ)
    (option_type : String) : Option ℝ × Bool :=
  let d1 := (Real.log (spot / strike) + (rate + vol ^ 2 / 2) * maturity) /
    (vol * Real.sqrt maturity)
  if option_type = "call" then (some (normalCDF d1), false)
  else if option_type = "put" then (some (-normalCDF (-d1)), false)
  else (none, true)

/-- Embeds `compute_gamma` from `src/main.py` (lines 36-44); no
`option_type` branch, so the `except` path is never reached. -/
noncomputable def compute_gamma (spot strike rate maturity vol : ℝ) :
    Option ℝ × Bool :=
  let d1 := (Real.log (spot / strike) + (rate + vol ^ 2 / 2) * maturity) /
    (vol * Real.sqrt maturity)
  (some (normalPDF d1 / (spot * vol * Real.sqrt maturity)), false)

/-- Embeds `compute_theta` from `src/main.py` (lines 46-58). -/
noncomputable def compute_theta (spot strike rate maturity vol : ℝ)
    (option_type : String) : Option ℝ × Bool :=
  let d1 := (Real.log (spot / strike) + (rate + vol ^ 2 / 2) * maturity) /
    (vol * Real.sqrt maturity)
  let d2 := d1 - vol * Real.sqrt maturity
  if option_type = "call" then
    (some ((-(spot * normalPDF d1 * vol) / (2 * Real.sqrt maturity) -
      rate * strike * Real.exp (-rate * maturity) * normalCDF d2) / 365), false)
  else if option_type = "put" then
    (some ((-(spot * normalPDF d1 * vol) / (2 * Real.sqrt maturity) +
      rate * strike * Real.exp (-rate * maturity) * normalCDF (-d2)) / 365), false)
  else (none, true)

/-- Embeds `compute_vega` from `src/main.py` (lines 60-68); no
`option_type` branch, so the `except` path is never reached. -/
noncomputable def compute_vega (spot strike rate maturity vol : ℝ) :
    Option ℝ × Bool :=
  let d1 := (Real.log (spot / strike) + (rate + vol ^ 2 / 2) * maturity) /
    (vol * Real.sqrt maturity)
  (some (spot * Real.sqrt maturity * normalPDF d1 * 0.01), false)

/-- Embeds `compute_rho` from `src/main.py` (lines 70-81); note the source
computes `d2` directly via the `(r - σ²/2)` formula. -/
noncomputable def compute_rho (spot strike rate maturity vol : ℝ)
    (option_type : String) : Option ℝ × Bool :=
  let d2 := (Real.log (spot / strike) + (rate - vol ^ 2 / 2) * maturity) /
    (vol * Real.sqrt maturity)
  if option_type = "call" then
    (some (0.01 * strike * maturity * Real.exp (-rate * maturity) *
      normalCDF d2), false)
  else if option_type = "put" then
    (some (-0.01 * strike * maturity * Real.exp (-rate * maturity) *
      normalCDF (-d2)), false)
  else (none, true)

/-- Embeds `spot_prices_range = np.arange(0, spot_price + 50 + 1)`
(`src/main.py` line 98): `np.arange(0, stop)` with float `stop > 0`
produces the values `0, 1, …, ⌈stop⌉ - 1`. -/
noncomputable def spot_prices_range (spot_price : ℝ) : List ℝ :=
  (List.range (Nat.ceil (spot_price + 50 + 1))).map (fun n => (n : ℝ))

/-- Embeds the `option_prices` list comprehension (`src/main.py` line 100). -/
noncomputable def option_prices (spot_price strike rate maturity vol : ℝ)
    (option_type : String) : List (Option ℝ × Bool) :=
  (spot_prices_range spot_price).map fun spot =>
    compute_option_price spot strike rate maturity vol option_type

/-- Embeds the `deltas` list comprehension (`src/main.py` line 101). -/
noncomputable def deltas (spot_price strike rate maturity vol : ℝ)
    (option_type : String) : List (Option ℝ × Bool) :=
  (spot_prices_range spot_price).map fun spot =>
    compute_delta spot strike rate maturity vol option_type

/-- Embeds the `gammas` list comprehension (`src/main.py` line 102). -/
noncomputable def gammas (spot_price strike rate maturity vol : ℝ) :
    List (Option ℝ × Bool) :=
  (spot_prices_range spot_price).map fun spot =>
    compute_gamma spot strike rate maturity vol

/-- Embeds the `thetas` list comprehension (`src/main.py` line 103). -/
noncomputable def thetas (spot_price strike rate maturity vol : ℝ)
    (option_type : String) : List (Option ℝ × Bool) :=
  (spot_prices_range spot_price).map fun spot =>
    compute_theta spot strike rate maturity vol option_type

/-- Embeds the `vegas` list comprehension (`src/main.py` line 104). -/
noncomputable def vegas (spot_price strike rate maturity vol : ℝ) :
    List (Option ℝ × Bool) :=
  (spot_prices_range spot_price).map fun spot =>
    compute_vega spot strike rate maturity vol

/-- Embeds the `rhos` list comprehension (`src/main.py` line 105). -/
noncomputable def rhos (spot_price strike rate maturity vol : ℝ)
    (option_type : String) : List (Option ℝ × Bool) :=
  (spot_prices_range spot_price).map fun spot =>
    compute_rho spot strike rate maturity vol option_type

/-! ### Properties of the standard normal density and CDF -/

theorem normalPDF_pos (x : ℝ) : 0 < normalPDF x := by
  unfold normalPDF
  exact div_pos (Real.exp_pos _)
    (Real.sqrt_pos.mpr (by positivity))

theorem normalPDF_eq (x : ℝ) :
    normalPDF x = Real.exp (-(1 / 2) * x ^ 2) / Real.sqrt (2 * Real.pi) := by
  unfold normalPDF
  rw [show -(1 / 2 : ℝ) * x ^ 2 = -x ^ 2 / 2 by ring]

theorem normalPDF_neg (x : ℝ) : normalPDF (-x) = normalPDF x := by
  unfold normalPDF
  rw [show (-x) ^ 2 = x ^ 2 by ring]

theorem integrable_normalPDF : Integrable normalPDF := by
  have h : Integrable (fun x : ℝ =>
      Real.exp (-(1 / 2) * x ^ 2) / Real.sqrt (2 * Real.pi)) :=
    (integrable_exp_neg_mul_sq (by norm_num)).div_const _
  exact h.congr (Filter.Eventually.of_forall fun x => (normalPDF_eq x).symm)

theorem integral_normalPDF : (∫ x : ℝ, normalPDF x) = 1 := by
  have h : (∫ x : ℝ, normalPDF x) =
      (∫ x : ℝ, Real.exp (-(1 / 2) * x ^ 2)) / Real.sqrt (2 * Real.pi) := by
    rw [← integral_div]
    exact integral_congr_ae (Filter.Eventually.of_forall fun x => normalPDF_eq x)
  rw [h, integral_gaussian]
  rw [show Real.pi / (1 / 2) = 2 * Real.pi by ring]
  exact div_self (Real.sqrt_ne_zero'.mpr (by positivity))

theorem normalCDF_add_neg (x : ℝ) : normalCDF x + normalCDF (-x) = 1 := by
  have hrefl : normalCDF (-x) = ∫ t in Ioi x, normalPDF t := by
    unfold normalCDF
    rw [show (∫ t in Iic (-x), normalPDF t) =
        ∫ t in Iic (-x), normalPDF (-t) by
      exact integral_congr_ae (Filter.Eventually.of_forall fun t => (normalPDF_neg t).symm)]
    rw [integral_comp_neg_Iic, neg_neg]
  rw [hrefl]
  unfold normalCDF
  rw [intervalIntegral.integral_Iic_add_Ioi integrable_normalPDF.integrableOn
    integrable_normalPDF.integrableOn, integral_normalPDF]

theorem normalCDF_pos (x : ℝ) : 0 < normalCDF x := by
  have hlt : x - 1 < x := by linarith
  have hpos : 0 < ∫ t in (x - 1)..x, normalPDF t :=
    intervalIntegral.intervalIntegral_pos_of_pos integrable_normalPDF.intervalIntegrable
      normalPDF_pos hlt
  have hIoc : (∫ t in (x - 1)..x, normalPDF t) = ∫ t in Ioc (x - 1) x, normalPDF t :=
    intervalIntegral.integral_of_le hlt.le
  have hmono : (∫ t in Ioc (x - 1) x, normalPDF t) ≤ ∫ t in Iic x, normalPDF t :=
    setIntegral_mono_set integrable_normalPDF.integrableOn
      (Filter.Eventually.of_forall fun t => (normalPDF_pos t).le)
      (HasSubset.Subset.eventuallyLE Ioc_subset_Iic_self)
  unfold normalCDF
  calc (0 : ℝ) < ∫ t in Ioc (x - 1) x, normalPDF t := hIoc ▸ hpos
    _ ≤ _ := hmono

theorem normalCDF_lt_one (x : ℝ) : normalCDF x < 1 := by
  have h := normalCDF_add_neg x
  have := normalCDF_pos (-x)
  linarith

theorem normalCDF_mono : Monotone normalCDF := by
  intro x y hxy
  exact setIntegral_mono_set integrable_normalPDF.integrableOn
    (Filter.Eventually.of_forall fun t => (normalPDF_pos t).le)
    (HasSubset.Subset.eventuallyLE (Iic_subset_Iic.mpr hxy))

/-! ### Claim theorems: branch structure and error channel -/

/-- C1: for every valid parameter set (S > 0, K > 0, r ≥ 0, T > 0, σ > 0),
with d1 = (ln(S/K) + (r + σ²/2)·T) / (σ·√T) and d2 = d1 − σ·√T, the price
function returns S·Φ(d1) − K·e^(−rT)·Φ(d2) for a call and
K·e^(−rT)·Φ(−d2) − S·Φ(−d1) for a put. -/
theorem compute_option_price_formula (spot strike rate maturity vol : ℝ)
    (hS : 0 < spot) (hK : 0 < strike) (hr : 0 ≤ rate) (hT : 0 < maturity)
    (hv : 0 < vol) :
    compute_option_price spot strike rate maturity vol "call" =
      (some (spot * normalCDF ((Real.log (spot / strike) +
          (rate + vol ^ 2 / 2) * maturity) / (vol * Real.sqrt maturity)) -
        strike * Real.exp (-(rate * maturity)) *
          normalCDF ((Real.log (spot / strike) +
            (rate + vol ^ 2 / 2) * maturity) / (vol * Real.sqrt maturity) -
            vol * Real.sqrt maturity)), false) ∧
    compute_option_price spot strike rate maturity vol "put" =
      (some (strike * Real.exp (-(rate * maturity)) *
          normalCDF (-((Real.log (spot / strike) +
            (rate + vol ^ 2 / 2) * maturity) / (vol * Real.sqrt maturity) -
            vol * Real.sqrt maturity)) -
        spot * normalCDF (-((Real.log (spot / strike) +
          (rate + vol ^ 2 / 2) * maturity) / (vol * Real.sqrt maturity)))), false) := by
  constructor <;> simp [compute_option_price, neg_mul]

/-- Witness for C1 at S = 30, K = 50, r = 0.03, T = 250/365, σ = 0.3. -/
theorem compute_option_price_formula_witness :
    compute_option_price 30 50 (3 / 100) (250 / 365) (3 / 10) "call" =
      (some (30 * normalCDF ((Real.log (30 / 50) +
          (3 / 100 + (3 / 10) ^ 2 / 2) * (250 / 365)) /
            (3 / 10 * Real.sqrt (250 / 365))) -
        50 * Real.exp (-(3 / 100 * (250 / 365))) *
          normalCDF ((Real.log (30 / 50) +
            (3 / 100 + (3 / 10) ^ 2 / 2) * (250 / 365)) /
              (3 / 10 * Real.sqrt (250 / 365)) -
            3 / 10 * Real.sqrt (250 / 365))), false) ∧
    compute_option_price 30 50 (3 / 100) (250 / 365) (3 / 10) "put" =
      (some (50 * Real.exp (-(3 / 100 * (250 / 365))) *
          normalCDF (-((Real.log (30 / 50) +
            (3 / 100 + (3 / 10) ^ 2 / 2) * (250 / 365)) /
              (3 / 10 * Real.sqrt (250 / 365)) -
            3 / 10 * Real.sqrt (250 / 365))) -
        30 * normalCDF (-((Real.log (30 / 50) +
          (3 / 100 + (3 / 10) ^ 2 / 2) * (250 / 365)) /
            (3 / 10 * Real.sqrt (250 / 365))))), false) :=
  compute_option_price_formula 30 50 (3 / 100) (250 / 365) (3 / 10)
    (by norm_num) (by norm_num) (by norm_num) (by norm_num) (by norm_num)

/-- C2 evidence: at S = 30, K = 50, r = 0.03, T = 0, σ = 0.3 the price
function (and likewise gamma) completes its normal return path — some value
is returned and the error channel is never engaged; no domain error is
signalled anywhere. -/
theorem zero_maturity_returns_value_not_error :
    ((compute_option_price 30 50 (3 / 100) 0 (3 / 10) "call").1).isSome = true ∧
    (compute_option_price 30 50 (3 / 100) 0 (3 / 10) "call").2 = false ∧
    ((compute_gamma 30 50 (3 / 100) 0 (3 / 10)).1).isSome = true ∧
    (compute_gamma 30 50 (3 / 100) 0 (3 / 10)).2 = false := by
  simp [compute_option_price, compute_gamma]

/-- C8 counterexample: on the input option_type = "straddle" the price
function invokes `st.sidebar.error`, i.e. it touches presentation state,
refuting "for every input (valid or not) the engine never touches
presentation state". -/
theorem compute_option_price_touches_sidebar_on_bad_type :
    (compute_option_price 30 50 (3 / 100) (250 / 365) (3 / 10) "straddle").2 = true := by
  simp [compute_option_price]

/-- C8 amended: the engine functions' results depend only on their explicit
arguments, and whenever option_type is "call" or "put" (gamma and vega take
no option type) no presentation state is touched and no I/O is performed. -/
theorem engine_no_presentation_effect_on_valid_type
    (spot strike rate maturity vol : ℝ) (option_type : String)
    (hty : option_type = "call" ∨ option_type = "put") :
    (compute_option_price spot strike rate maturity vol option_type).2 = false ∧
    (compute_delta spot strike rate maturity vol option_type).2 = false ∧
    (compute_theta spot strike rate maturity vol option_type).2 = false ∧
    (compute_rho spot strike rate maturity vol option_type).2 = false ∧
    (compute_gamma spot strike rate maturity vol).2 = false ∧
    (compute_vega spot strike rate maturity vol).2 = false := by
  rcases hty with h | h <;> subst h <;>
    simp [compute_option_price, compute_delta, compute_theta, compute_rho,
      compute_gamma, compute_vega]

/-- Witness for the amended C8 at S = 30, K = 50, r = 0.03, T = 250/365,
σ = 0.3, option_type = "call". -/
theorem engine_no_presentation_effect_on_valid_type_witness :
    (compute_option_price 30 50 (3 / 100) (250 / 365) (3 / 10) "call").2 = false ∧
    (compute_delta 30 50 (3 / 100) (250 / 365) (3 / 10) "call").2 = false ∧
    (compute_theta 30 50 (3 / 100) (250 / 365) (3 / 10) "call").2 = false ∧
    (compute_rho 30 50 (3 / 100) (250 / 365) (3 / 10) "call").2 = false ∧
    (compute_gamma 30 50 (3 / 100) (250 / 365) (3 / 10)).2 = false ∧
    (compute_vega 30 50 (3 / 100) (250 / 365) (3 / 10)).2 = false :=
  engine_no_presentation_effect_on_valid_type 30 50 (3 / 100) (250 / 365)
    (3 / 10) "call" (Or.inl rfl)

/-- C10: for every valid parameter set, an option_type other than "call" or
"put" makes price, delta, theta and rho return None (the unassigned-result
error is swallowed by the catch-all handler) rather than raising or
returning a number. -/
theorem invalid_option_type_returns_none (spot strike rate maturity vol : ℝ)
    (option_type : String) (hS : 0 < spot) (hK : 0 < strike) (hr : 0 ≤ rate)
    (hT : 0 < maturity) (hv : 0 < vol)
    (hc : option_type ≠ "call") (hp : option_type ≠ "put") :
    (compute_option_price spot strike rate maturity vol option_type).1 = none ∧
    (compute_delta spot strike rate maturity vol option_type).1 = none ∧
    (compute_theta spot strike rate maturity vol option_type).1 = none ∧
    (compute_rho spot strike rate maturity vol option_type).1 = none := by
  simp [compute_option_price, compute_delta, compute_theta, compute_rho, hc, hp]

/-- Witness for C10 at S = 30, K = 50, r = 0.03, T = 250/365, σ = 0.3,
option_type = "american". -/
theorem invalid_option_type_returns_none_witness :
    (compute_option_price 30 50 (3 / 100) (250 / 365) (3 / 10) "american").1 = none ∧
    (compute_delta 30 50 (3 / 100) (250 / 365) (3 / 10) "american").1 = none ∧
    (compute_theta 30 50 (3 / 100) (250 / 365) (3 / 10) "american").1 = none ∧
    (compute_rho 30 50 (3 / 100) (250 / 365) (3 / 10) "american").1 = none :=
  invalid_option_type_returns_none 30 50 (3 / 100) (250 / 365) (3 / 10)
    "american" (by norm_num) (by norm_num) (by norm_num) (by norm_num)
    (by norm_num) (by decide) (by decide)

/-! ### Branch-reduction helper lemmas -/

theorem compute_option_price_call_eq (spot strike rate maturity vol : ℝ) :
    compute_option_price spot strike rate maturity vol "call" =
      (some (spot * normalCDF ((Real.log (spot / strike) +
          (rate + vol ^ 2 / 2) * maturity) / (vol * Real.sqrt maturity)) -
        strike * Real.exp (-rate * maturity) *
          normalCDF ((Real.log (spot / strike) +
            (rate + vol ^ 2 / 2) * maturity) / (vol * Real.sqrt maturity) -
            vol * Real.sqrt maturity)), false) := by
  simp [compute_option_price]

theorem compute_option_price_put_eq (spot strike rate maturity vol : ℝ) :
    compute_option_price spot strike rate maturity vol "put" =
      (some (strike * Real.exp (-rate * maturity) *
          normalCDF (-((Real.log (spot / strike) +
            (rate + vol ^ 2 / 2) * maturity) / (vol * Real.sqrt maturity) -
            vol * Real.sqrt maturity)) -
        spot * normalCDF (-((Real.log (spot / strike) +
          (rate + vol ^ 2 / 2) * maturity) / (vol * Real.sqrt maturity)))), false) := by
  simp [compute_option_price]

theorem compute_delta_call_eq (spot strike rate maturity vol : ℝ) :
    compute_delta spot strike rate maturity vol "call" =
      (some (normalCDF ((Real.log (spot / strike) +
        (rate + vol ^ 2 / 2) * maturity) / (vol * Real.sqrt maturity))), false) := by
  simp [compute_delta]

theorem compute_delta_put_eq (spot strike rate maturity vol : ℝ) :
    compute_delta spot strike rate maturity vol "put" =
      (some (-normalCDF (-((Real.log (spot / strike) +
        (rate + vol ^ 2 / 2) * maturity) / (vol * Real.sqrt maturity)))), false) := by
  simp [compute_delta]

/-! ### Claim theorems: analytic properties -/

/-- C3: put-call parity — for every valid parameter set, the call price
minus the put price equals S − K·e^(−rT). -/
theorem put_call_parity (spot strike rate maturity vol : ℝ)
    (hS : 0 < spot) (hK : 0 < strike) (hr : 0 ≤ rate) (hT : 0 < maturity)
    (hv : 0 < vol) :
    ((compute_option_price spot strike rate maturity vol "call").1).getD 0 -
      ((compute_option_price spot strike rate maturity vol "put").1).getD 0 =
      spot - strike * Real.exp (-(rate * maturity)) := by
  have h1 := normalCDF_add_neg ((Real.log (spot / strike) +
    (rate + vol ^ 2 / 2) * maturity) / (vol * Real.sqrt maturity))
  have h2 := normalCDF_add_neg ((Real.log (spot / strike) +
    (rate + vol ^ 2 / 2) * maturity) / (vol * Real.sqrt maturity) -
    vol * Real.sqrt maturity)
  rw [compute_option_price_call_eq, compute_option_price_put_eq]
  simp only [Option.getD_some, neg_mul]
  linear_combination spot * h1 - strike * Real.exp (-(rate * maturity)) * h2

/-- Witness for C3 at S = 30, K = 50, r = 0.03, T = 250/365, σ = 0.3. -/
theorem put_call_parity_witness :
    ((compute_option_price 30 50 (3 / 100) (250 / 365) (3 / 10) "call").1).getD 0 -
      ((compute_option_price 30 50 (3 / 100) (250 / 365) (3 / 10) "put").1).getD 0 =
      30 - 50 * Real.exp (-(3 / 100 * (250 / 365))) :=
  put_call_parity 30 50 (3 / 100) (250 / 365) (3 / 10)
    (by norm_num) (by norm_num) (by norm_num) (by norm_num) (by norm_num)

/-- C6: for every valid parameter set, call delta lies strictly between 0
and 1, and put delta strictly between −1 and 0. -/
theorem delta_bounds (spot strike rate maturity vol : ℝ)
    (hS : 0 < spot) (hK : 0 < strike) (hr : 0 ≤ rate) (hT : 0 < maturity)
    (hv : 0 < vol) :
    (0 < ((compute_delta spot strike rate maturity vol "call").1).getD 0 ∧
      ((compute_delta spot strike rate maturity vol "call").1).getD 0 < 1) ∧
    (-1 < ((compute_delta spot strike rate maturity vol "put").1).getD 0 ∧
      ((compute_delta spot strike rate maturity vol "put").1).getD 0 < 0) := by
  rw [compute_delta_call_eq, compute_delta_put_eq]
  simp only [Option.getD_some]
  refine ⟨⟨normalCDF_pos _, normalCDF_lt_one _⟩, ?_, ?_⟩
  · have := normalCDF_lt_one (-((Real.log (spot / strike) +
      (rate + vol ^ 2 / 2) * maturity) / (vol * Real.sqrt maturity)))
    linarith
  · have := normalCDF_pos (-((Real.log (spot / strike) +
      (rate + vol ^ 2 / 2) * maturity) / (vol * Real.sqrt maturity)))
    linarith

/-- Witness for C6 at S = 30, K = 50, r = 0.03, T = 250/365, σ = 0.3. -/
theorem delta_bounds_witness :
    (0 < ((compute_delta 30 50 (3 / 100) (250 / 365) (3 / 10) "call").1).getD 0 ∧
      ((compute_delta 30 50 (3 / 100) (250 / 365) (3 / 10) "call").1).getD 0 < 1) ∧
    (-1 < ((compute_delta 30 50 (3 / 100) (250 / 365) (3 / 10) "put").1).getD 0 ∧
      ((compute_delta 30 50 (3 / 100) (250 / 365) (3 / 10) "put").1).getD 0 < 0) :=
  delta_bounds 30 50 (3 / 100) (250 / 365) (3 / 10)
    (by norm_num) (by norm_num) (by norm_num) (by norm_num) (by norm_num)

/-- C9: for fixed valid strike, rate, maturity and volatility, call delta is
non-decreasing in the spot price: for 0 < s1 ≤ s2, delta(s1) ≤ delta(s2). -/
theorem call_delta_monotone_in_spot (strike rate maturity vol s1 s2 : ℝ)
    (hK : 0 < strike) (hr : 0 ≤ rate) (hT : 0 < maturity) (hv : 0 < vol)
    (hs1 : 0 < s1) (h12 : s1 ≤ s2) :
    ((compute_delta s1 strike rate maturity vol "call").1).getD 0 ≤
      ((compute_delta s2 strike rate maturity vol "call").1).getD 0 := by
  rw [compute_delta_call_eq, compute_delta_call_eq]
  simp only [Option.getD_some]
  apply normalCDF_mono
  have h0 : 0 < vol * Real.sqrt maturity := by positivity
  gcongr

/-- Witness for C9 at K = 50, r = 0.03, T = 250/365, σ = 0.3, s1 = 10,
s2 = 20. -/
theorem call_delta_monotone_in_spot_witness :
    ((compute_delta 10 50 (3 / 100) (250 / 365) (3 / 10) "call").1).getD 0 ≤
      ((compute_delta 20 50 (3 / 100) (250 / 365) (3 / 10) "call").1).getD 0 :=
  call_delta_monotone_in_spot 50 (3 / 100) (250 / 365) (3 / 10) 10 20
    (by norm_num) (by norm_num) (by norm_num) (by norm_num) (by norm_num)
    (by norm_num)

theorem compute_rho_call_eq (spot strike rate maturity vol : ℝ) :
    compute_rho spot strike rate maturity vol "call" =
      (some (0.01 * strike * maturity * Real.exp (-rate * maturity) *
        normalCDF ((Real.log (spot / strike) +
          (rate - vol ^ 2 / 2) * maturity) / (vol * Real.sqrt maturity))), false) := by
  simp [compute_rho]

theorem compute_rho_put_eq (spot strike rate maturity vol : ℝ) :
    compute_rho spot strike rate maturity vol "put" =
      (some (-0.01 * strike * maturity * Real.exp (-rate * maturity) *
        normalCDF (-((Real.log (spot / strike) +
          (rate - vol ^ 2 / 2) * maturity) / (vol * Real.sqrt maturity)))), false) := by
  simp [compute_rho]

/-- C5: the d2 computed directly inside rho via (r − σ²/2) equals the
d2 = d1 − σ·√T used by price and theta, so rho from either formulation
yields the same value. -/
theorem rho_d2_formulation_equivalence (spot strike rate maturity vol : ℝ)
    (hS : 0 < spot) (hK : 0 < strike) (hr : 0 ≤ rate) (hT : 0 < maturity)
    (hv : 0 < vol) :
    (Real.log (spot / strike) + (rate - vol ^ 2 / 2) * maturity) /
        (vol * Real.sqrt maturity) =
      (Real.log (spot / strike) + (rate + vol ^ 2 / 2) * maturity) /
        (vol * Real.sqrt maturity) - vol * Real.sqrt maturity ∧
    compute_rho spot strike rate maturity vol "call" =
      (some (0.01 * strike * maturity * Real.exp (-rate * maturity) *
        normalCDF ((Real.log (spot / strike) +
          (rate + vol ^ 2 / 2) * maturity) / (vol * Real.sqrt maturity) -
          vol * Real.sqrt maturity)), false) ∧
    compute_rho spot strike rate maturity vol "put" =
      (some (-0.01 * strike * maturity * Real.exp (-rate * maturity) *
        normalCDF (-((Real.log (spot / strike) +
          (rate + vol ^ 2 / 2) * maturity) / (vol * Real.sqrt maturity) -
          vol * Real.sqrt maturity))), false) := by
  have hs : (0 : ℝ) < Real.sqrt maturity := Real.sqrt_pos.mpr hT
  have key : (Real.log (spot / strike) + (rate - vol ^ 2 / 2) * maturity) /
      (vol * Real.sqrt maturity) =
      (Real.log (spot / strike) + (rate + vol ^ 2 / 2) * maturity) /
        (vol * Real.sqrt maturity) - vol * Real.sqrt maturity := by
    field_simp
    ring_nf
    rw [Real.sq_sqrt hT.le]
    ring
  refine ⟨key, ?_, ?_⟩
  · rw [compute_rho_call_eq, key]
  · rw [compute_rho_put_eq, key]

/-- Witness for C5 at S = 30, K = 50, r = 0.03, T = 250/365, σ = 0.3. -/
theorem rho_d2_formulation_equivalence_witness :
    (Real.log (30 / 50 : ℝ) + (3 / 100 - (3 / 10 : ℝ) ^ 2 / 2) * (250 / 365)) /
        (3 / 10 * Real.sqrt (250 / 365)) =
      (Real.log (30 / 50 : ℝ) + (3 / 100 + (3 / 10 : ℝ) ^ 2 / 2) * (250 / 365)) /
        (3 / 10 * Real.sqrt (250 / 365)) - 3 / 10 * Real.sqrt (250 / 365) ∧
    compute_rho 30 50 (3 / 100) (250 / 365) (3 / 10) "call" =
      (some (0.01 * 50 * (250 / 365) * Real.exp (-(3 / 100) * (250 / 365)) *
        normalCDF ((Real.log ((30 : ℝ) / 50) +
          (3 / 100 + (3 / 10 : ℝ) ^ 2 / 2) * (250 / 365)) /
            (3 / 10 * Real.sqrt (250 / 365)) -
          3 / 10 * Real.sqrt (250 / 365))), false) ∧
    compute_rho 30 50 (3 / 100) (250 / 365) (3 / 10) "put" =
      (some (-0.01 * 50 * (250 / 365) * Real.exp (-(3 / 100) * (250 / 365)) *
        normalCDF (-((Real.log ((30 : ℝ) / 50) +
          (3 / 100 + (3 / 10 : ℝ) ^ 2 / 2) * (250 / 365)) /
            (3 / 10 * Real.sqrt (250 / 365)) -
          3 / 10 * Real.sqrt (250 / 365)))), false) :=
  rho_d2_formulation_equivalence 30 50 (3 / 100) (250 / 365) (3 / 10)
    (by norm_num) (by norm_num) (by norm_num) (by norm_num) (by norm_num)

/-- C4: for every valid parameter set, theta returns
[−S·φ(d1)·σ/(2√T) − r·K·e^(−rT)·Φ(d2)] / 365 for a call and
[−S·φ(d1)·σ/(2√T) + r·K·e^(−rT)·Φ(−d2)] / 365 for a put: the annualized
theta divided by exactly 365, a per-calendar-day decay rate. -/
theorem compute_theta_formula (spot strike rate maturity vol : ℝ)
    (hS : 0 < spot) (hK : 0 < strike) (hr : 0 ≤ rate) (hT : 0 < maturity)
    (hv : 0 < vol) :
    compute_theta spot strike rate maturity vol "call" =
      (some ((-(spot * normalPDF ((Real.log (spot / strike) +
          (rate + vol ^ 2 / 2) * maturity) / (vol * Real.sqrt maturity)) * vol) /
          (2 * Real.sqrt maturity) -
        rate * strike * Real.exp (-(rate * maturity)) *
          normalCDF ((Real.log (spot / strike) +
            (rate + vol ^ 2 / 2) * maturity) / (vol * Real.sqrt maturity) -
            vol * Real.sqrt maturity)) / 365), false) ∧
    compute_theta spot strike rate maturity vol "put" =
      (some ((-(spot * normalPDF ((Real.log (spot / strike) +
          (rate + vol ^ 2 / 2) * maturity) / (vol * Real.sqrt maturity)) * vol) /
          (2 * Real.sqrt maturity) +
        rate * strike * Real.exp (-(rate * maturity)) *
          normalCDF (-((Real.log (spot / strike) +
            (rate + vol ^ 2 / 2) * maturity) / (vol * Real.sqrt maturity) -
            vol * Real.sqrt maturity))) / 365), false) := by
  constructor <;> simp [compute_theta, neg_mul]

/-- Witness for C4 at S = 30, K = 50, r = 0.03, T = 250/365, σ = 0.3. -/
theorem compute_theta_formula_witness :
    compute_theta 30 50 (3 / 100) (250 / 365) (3 / 10) "call" =
      (some ((-(30 * normalPDF ((Real.log ((30 : ℝ) / 50) +
          (3 / 100 + (3 / 10 : ℝ) ^ 2 / 2) * (250 / 365)) /
            (3 / 10 * Real.sqrt (250 / 365))) * (3 / 10)) /
          (2 * Real.sqrt (250 / 365)) -
        3 / 100 * 50 * Real.exp (-(3 / 100 * (250 / 365))) *
          normalCDF ((Real.log ((30 : ℝ) / 50) +
            (3 / 100 + (3 / 10 : ℝ) ^ 2 / 2) * (250 / 365)) /
              (3 / 10 * Real.sqrt (250 / 365)) -
            3 / 10 * Real.sqrt (250 / 365))) / 365), false) ∧
    compute_theta 30 50 (3 / 100) (250 / 365) (3 / 10) "put" =
      (some ((-(30 * normalPDF ((Real.log ((30 : ℝ) / 50) +
          (3 / 100 + (3 / 10 : ℝ) ^ 2 / 2) * (250 / 365)) /
            (3 / 10 * Real.sqrt (250 / 365))) * (3 / 10)) /
          (2 * Real.sqrt (250 / 365)) +
        3 / 100 * 50 * Real.exp (-(3 / 100 * (250 / 365))) *
          normalCDF (-((Real.log ((30 : ℝ) / 50) +
            (3 / 100 + (3 / 10 : ℝ) ^ 2 / 2) * (250 / 365)) /
              (3 / 10 * Real.sqrt (250 / 365)) -
            3 / 10 * Real.sqrt (250 / 365)))) / 365), false) :=
  compute_theta_formula 30 50 (3 / 100) (250 / 365) (3 / 10)
    (by norm_num) (by norm_num) (by norm_num) (by norm_num) (by norm_num)

theorem zip_self_map {α β : Type} (g : α → β) :
    ∀ l : List α, l.zip (l.map g) = l.map fun x => (x, g x)
  | [] => rfl
  | a :: t => by simp [zip_self_map g t]

/-- C7 counterexample: for the user-enterable spot price S = 1.5 (the spot
widget has minimum 1.0 and step 0.1), the swept range contains the spot
value 52, which exceeds S + 50 = 51.5 — the range is not
0, 1, …, S + 50 inclusive. -/
theorem spot_prices_range_exceeds_bound :
    (52 : ℝ) ∈ spot_prices_range (3 / 2) ∧ (3 : ℝ) / 2 + 50 < 52 := by
  constructor
  · have h53 : Nat.ceil ((3 : ℝ) / 2 + 50 + 1) = 53 := by
      rw [Nat.ceil_eq_iff (by norm_num)]
      constructor <;> norm_num
    unfold spot_prices_range
    rw [h53, show (52 : ℝ) = ((52 : ℕ) : ℝ) by norm_num]
    exact List.mem_map_of_mem (fun n : ℕ => (n : ℝ))
      (List.mem_range.mpr (by norm_num : (52 : ℕ) < 53))
  · norm_num

/-- C7 amended: for an integer user-entered spot price n, each of the six
metrics is evaluated over the ordered spot values 0, 1, …, n + 50
(inclusive, step 1), holding the other parameters and the option type
fixed, and pairing each spot with the metric value at that spot, in spot
order. -/
theorem sweep_series_integer_spot (n : ℕ) (strike rate maturity vol : ℝ)
    (option_type : String) :
    spot_prices_range (n : ℝ) = (List.range (n + 51)).map (fun k => (k : ℝ)) ∧
    (spot_prices_range (n : ℝ)).zip
        (option_prices (n : ℝ) strike rate maturity vol option_type) =
      (List.range (n + 51)).map (fun k => ((k : ℝ),
        compute_option_price (k : ℝ) strike rate maturity vol option_type)) ∧
    (spot_prices_range (n : ℝ)).zip
        (deltas (n : ℝ) strike rate maturity vol option_type) =
      (List.range (n + 51)).map (fun k => ((k : ℝ),
        compute_delta (k : ℝ) strike rate maturity vol option_type)) ∧
    (spot_prices_range (n : ℝ)).zip
        (gammas (n : ℝ) strike rate maturity vol) =
      (List.range (n + 51)).map (fun k => ((k : ℝ),
        compute_gamma (k : ℝ) strike rate maturity vol)) ∧
    (spot_prices_range (n : ℝ)).zip
        (thetas (n : ℝ) strike rate maturity vol option_type) =
      (List.range (n + 51)).map (fun k => ((k : ℝ),
        compute_theta (k : ℝ) strike rate maturity vol option_type)) ∧
    (spot_prices_range (n : ℝ)).zip
        (vegas (n : ℝ) strike rate maturity vol) =
      (List.range (n + 51)).map (fun k => ((k : ℝ),
        compute_vega (k : ℝ) strike rate maturity vol)) ∧
    (spot_prices_range (n : ℝ)).zip
        (rhos (n : ℝ) strike rate maturity vol option_type) =
      (List.range (n + 51)).map (fun k => ((k : ℝ),
        compute_rho (k : ℝ) strike rate maturity vol option_type)) := by
  have hceil : Nat.ceil ((n : ℝ) + 50 + 1) = n + 51 := by
    rw [show ((n : ℝ) + 50 + 1) = ((n + 51 : ℕ) : ℝ) by push_cast; ring,
      Nat.ceil_natCast]
  have hrange : spot_prices_range (n : ℝ) =
      (List.range (n + 51)).map (fun k => (k : ℝ)) := by
    unfold spot_prices_range
    rw [hceil]
  have key : ∀ g : ℝ → Option ℝ × Bool,
      (spot_prices_range (n : ℝ)).zip ((spot_prices_range (n : ℝ)).map g) =
        (List.range (n + 51)).map (fun k => ((k : ℝ), g (k : ℝ))) := by
    intro g
    rw [hrange, zip_self_map, List.map_map]
    rfl
  exact ⟨hrange, key _, key _, key _, key _, key _, key _⟩
